import Mathlib

/-
Verification of the repair-log web page (src/app/page.tsx): a shallow
embedding of its CSV-import normalizer, manual-entry handler, session
guard, and period filter, together with theorems about the properties
the specification states.

Conventions of the embedding:
* JavaScript numbers that can only be NaN or a finite decimal value in the
  modelled code paths are represented as `Option Rat`, `none` standing for
  NaN.  Exponent, hexadecimal and Infinity literals never occur in the
  inputs the page feeds to `Number`, so `parseJSNumber` models the decimal
  fragment of ECMA-262 `StringNumericLiteral` only.
* Timestamps are integers: epoch days or epoch milliseconds.  The runtime
  timezone is taken to be UTC, so `new Date(y, m, d)` (a local-time
  constructor) and `toISOString` (UTC) agree on midnight boundaries.
* `new Date(string)` parsing is modelled for the date-only ISO form
  `YYYY-MM-DD`, which is the only parseable shape the claims exercise;
  every other string (including the empty string) yields an invalid date,
  as it does in every conforming engine.
* Calling `toISOString` on an invalid date throws `RangeError` in
  JavaScript; the embedding makes the row mapper return `Except.error`.
-/

namespace RepairLog

/-- Equality on `Except` values is decidable when it is on both
components; used to evaluate the embedding on concrete inputs. -/
instance {ε α : Type} [DecidableEq ε] [DecidableEq α] : DecidableEq (Except ε α) :=
  fun a b =>
    match a, b with
    | Except.error x, Except.error y =>
      if h : x = y then isTrue (by rw [h])
      else isFalse (fun hc => h (by injection hc))
    | Except.error _, Except.ok _ => isFalse (fun hc => Except.noConfusion hc)
    | Except.ok _, Except.error _ => isFalse (fun hc => Except.noConfusion hc)
    | Except.ok x, Except.ok y =>
      if h : x = y then isTrue (by rw [h])
      else isFalse (fun hc => h (by injection hc))

/-- JavaScript truthiness of a CSV cell: `undefined` (absent column) and
the empty string are falsy; every other string is truthy. -/
def jsFalsy : Option String → Bool
  | none => true
  | some s => s = ""

/-- Numeric value of a list of ASCII digit characters, most significant
first. -/
def digitsVal (l : List Char) : Nat :=
  l.foldl (fun a c => 10 * a + (c.toNat - 48)) 0

/-- Splits a character list at its first dot: returns the part before and
the part after, or `none` when no dot occurs. -/
def splitFirstDot : List Char → Option (List Char × List Char)
  | [] => none
  | c :: r =>
    if c = '.' then some ([], r)
    else (splitFirstDot r).map (fun p => (c :: p.1, p.2))

/-- Unsigned part of ECMA-262 string-to-number conversion, decimal
fragment: digits, optionally with one dot, at least one digit overall.
Returns `none` for NaN. -/
def parseUnsignedJS (l : List Char) : Option Rat :=
  match splitFirstDot l with
  | none =>
    if l ≠ [] ∧ l.all Char.isDigit then some (mkRat (digitsVal l : Int) 1) else none
  | some (ip, fp) =>
    if fp.contains '.' then none
    else if (ip ++ fp) ≠ [] ∧ ip.all Char.isDigit ∧ fp.all Char.isDigit then
      some (mkRat ((digitsVal ip * 10 ^ fp.length + digitsVal fp : Nat) : Int)
        (10 ^ fp.length))
    else none

/-- Negation of an (already reduced) rational, expressed through `mkRat`
so that concrete values evaluate by `decide`. -/
def ratNeg (q : Rat) : Rat := mkRat (-q.num) q.den

/-- ECMA-262 whitespace stripped by string-to-number conversion
(the ASCII part, the only one arising here). -/
def isJsSpace (c : Char) : Bool :=
  c = ' ' || c = '\t' || c = '\n' || c = '\r' || c = '\x0b' || c = '\x0c'

/-- Strips leading and trailing whitespace from a character list. -/
def trimChars (l : List Char) : List Char :=
  ((l.dropWhile isJsSpace).reverse.dropWhile isJsSpace).reverse

/-- ECMA-262 `Number(string)` on the decimal fragment: trim whitespace,
empty string is `0`, optional sign, then an unsigned decimal literal;
anything else is NaN (`none`). -/
def parseJSNumber (s : String) : Option Rat :=
  match trimChars s.toList with
  | [] => some 0
  | '+' :: r => parseUnsignedJS r
  | '-' :: r => (parseUnsignedJS r).map ratNeg
  | l => parseUnsignedJS l

/-- `String.prototype.replace('$', '')`: removes the first dollar sign
only, leaving later ones in place. -/
def replaceFirstDollar : List Char → List Char
  | [] => []
  | c :: r => if c = '$' then r else c :: replaceFirstDollar r

/-- Days since the Unix epoch of the Gregorian date `y-m-d` (month
`1..12`), Howard Hinnant's `days_from_civil` algorithm on `Int` with
floor division. -/
def daysFromCivil (y m d : Int) : Int :=
  let yy := if m ≤ 2 then y - 1 else y
  let era := yy / 400
  let yoe := yy % 400
  era * 146097 + yoe * 365 + yoe / 4 - yoe / 100
    + (153 * (if m ≤ 2 then m + 9 else m - 3) + 2) / 5 + d - 1 - 719468

/-- Inverse of `daysFromCivil`: the Gregorian `(year, month, day)` of an
epoch day count (Hinnant's `civil_from_days`). -/
def civilFromDays (z : Int) : Int × Int × Int :=
  let zz := z + 719468
  let era := zz / 146097
  let doe := zz % 146097
  let yoe := (doe - doe / 1460 + doe / 36524 - doe / 146096) / 365
  let y := yoe + era * 400
  let doy := doe - (365 * yoe + yoe / 4 - yoe / 100)
  let mp := (5 * doy + 2) / 153
  let d := doy - (153 * mp + 2) / 5 + 1
  let m := if mp < 10 then mp + 3 else mp - 9
  (if m ≤ 2 then y + 1 else y, m, d)

/-- Number of days in month `m` (1..12) of Gregorian year `y`. -/
def daysInMonth (y m : Int) : Int :=
  if m = 2 then (if y % 4 = 0 ∧ (y % 100 ≠ 0 ∨ y % 400 = 0) then 29 else 28)
  else if m = 4 ∨ m = 6 ∨ m = 9 ∨ m = 11 then 30 else 31

/-- Decimal rendering of a non-negative integer, left-padded with zeros
to width `w`. -/
def padNum (w : Nat) (n : Int) : String :=
  let s := toString n.toNat
  String.mk (List.replicate (w - s.length) '0') ++ s

/-- `Date.prototype.toISOString` for an epoch-millisecond timestamp in
the four-digit-year range: `YYYY-MM-DDTHH:mm:ss.sssZ`. -/
def toISOString (ms : Int) : String :=
  let day := ms / 86400000
  let rem := ms % 86400000
  let c := civilFromDays day
  padNum 4 c.1 ++ "-" ++ padNum 2 c.2.1 ++ "-" ++ padNum 2 c.2.2
    ++ "T" ++ padNum 2 (rem / 3600000) ++ ":" ++ padNum 2 (rem % 3600000 / 60000)
    ++ ":" ++ padNum 2 (rem % 60000 / 1000) ++ "." ++ padNum 3 (rem % 1000) ++ "Z"

/-- Numeric value of one ASCII digit character. -/
def digitVal (c : Char) : Int := (c.toNat : Int) - 48

/-- `new Date(string)` for the date-only ISO form `YYYY-MM-DD`
(interpreted as UTC midnight, epoch milliseconds); any other string is an
invalid date (`none`).  Out-of-range month or day components also yield
an invalid date, as ECMA-262 prescribes. -/
def parseDateISO (s : String) : Option Int :=
  match s.toList with
  | [y1, y2, y3, y4, c1, m1, m2, c2, d1, d2] =>
    if c1 = '-' ∧ c2 = '-' ∧ ([y1, y2, y3, y4, m1, m2, d1, d2].all Char.isDigit) then
      let y := 1000 * digitVal y1 + 100 * digitVal y2 + 10 * digitVal y3 + digitVal y4
      let m := 10 * digitVal m1 + digitVal m2
      let d := 10 * digitVal d1 + digitVal d2
      if 1 ≤ m ∧ m ≤ 12 ∧ 1 ≤ d ∧ d ≤ daysInMonth y m then
        some (86400000 * daysFromCivil y m d)
      else none
    else none
  | _ => none

/-- `new Date(row[c])` where the cell may be absent: `new Date(undefined)`
is an invalid date. -/
def jsDateParse : Option String → Option Int
  | none => none
  | some s => parseDateISO s

/-- `new Date(y, m, d).getTime()` under a UTC runtime: month overflow is
normalized (`ym = y + floor(m/12)`, `mn = m mod 12`), day `0` is the day
before the first of the month, and years `0..99` map to `1900 + y`
(ECMA-262 `MakeDay`). -/
def jsDateCtorMs (y m d : Int) : Int :=
  let yy := if 0 ≤ y ∧ y ≤ 99 then 1900 + y else y
  86400000 * (daysFromCivil (yy + m / 12) (m % 12 + 1) 1 + (d - 1))

/-- A repair record as written to the store.  `price` and `quantity` are
JavaScript numbers (`none` = NaN); `date_sold` is the string the client
sends (an ISO timestamp for CSV rows, the raw date-input string for
manual rows); `notes` is only present on manually entered records. -/
structure RepairRecord where
  listing_id : String
  item_name : String
  price : Option Rat
  date_sold : String
  quantity : Option Rat
  notes : Option String
  source : String
deriving DecidableEq

/-- One parsed CSV row as the tokenizer hands it over with `header: true`:
each named column is either a string or absent. -/
structure CsvRow where
  orderNumber : Option String
  itemTitle : Option String
  totalPrice : Option String
  saleDate : Option String
  quantity : Option String
deriving DecidableEq

/-- The validity gate of `handleCSV` (page.tsx line 84): a row whose
"Order number", "Item title" or "Total price" cell is falsy is mapped to
`null`. -/
def rowDropped (r : CsvRow) : Bool :=
  jsFalsy r.orderNumber || jsFalsy r.itemTitle || jsFalsy r.totalPrice

/-- `Number(String(row['Total price']).replace('$',''))`
(page.tsx line 89). -/
def csvPrice (tp : String) : Option Rat :=
  parseJSNumber (String.mk (replaceFirstDollar tp.toList))

/-- `Number(row['Quantity'] || 1)` (page.tsx line 91): a falsy cell
defaults to `1`, otherwise the string is converted by `Number`. -/
def csvQuantity (q : Option String) : Option Rat :=
  if jsFalsy q then some 1 else parseJSNumber (q.getD "")

/-- The JavaScript exception a row mapper can raise:
`new Date(bad).toISOString()` throws `RangeError`. -/
inductive JsError
  | rangeError
deriving DecidableEq

/-- The row mapper of `handleCSV` (page.tsx lines 83-94): gate-failing
rows become `none`; otherwise the record literal is built, and
`toISOString` on an invalid `Sale date` throws. -/
def normalizeRow (row : CsvRow) : Except JsError (Option RepairRecord) :=
  if rowDropped row then Except.ok none
  else
    match jsDateParse row.saleDate with
    | none => Except.error JsError.rangeError
    | some ms =>
      Except.ok (some
        { listing_id := row.orderNumber.getD ""
          item_name := row.itemTitle.getD ""
          price := csvPrice (row.totalPrice.getD "")
          date_sold := toISOString ms
          quantity := csvQuantity row.quantity
          notes := none
          source := "csv" })

/-- `rows = results.data.map(...).filter(Boolean)` (page.tsx lines
82-95): the normalized batch in input order with the `null`s removed; an
exception from any row mapper aborts the whole construction. -/
def makeBatch : List CsvRow → Except JsError (List RepairRecord)
  | [] => Except.ok []
  | r :: rs =>
    match normalizeRow r, makeBatch rs with
    | Except.error e, _ => Except.error e
    | Except.ok _, Except.error e => Except.error e
    | Except.ok none, Except.ok rest => Except.ok rest
    | Except.ok (some x), Except.ok rest => Except.ok (x :: rest)

/-- Modelled from the spec: the hosted store's upsert of one row with
`listing_id` as conflict key — the store itself is an external
collaborator, specified as "a write that inserts a new row or overwrites
an existing row sharing a declared conflict key". -/
def upsertOne (store : List RepairRecord) (r : RepairRecord) : List RepairRecord :=
  if store.any (fun s => s.listing_id = r.listing_id) then
    store.map (fun s => if s.listing_id = r.listing_id then r else s)
  else store ++ [r]

/-- Modelled from the spec: the bulk upsert of page.tsx lines 98-100
(`upsert(rows, { onConflict: ['listing_id'] })`), applying the batch in
order against the store contents. -/
def bulkUpsert (store : List RepairRecord) (batch : List RepairRecord) : List RepairRecord :=
  batch.foldl upsertOne store

/-- The manual-entry form state (page.tsx lines 14-21). -/
structure FormState where
  item_name : String
  listing_id : String
  price : String
  date_sold : String
  quantity : Int
  notes : String
deriving DecidableEq

/-- The form's initial state, also restored after a successful submit
(page.tsx lines 14-21 and 64-71). -/
def initialForm : FormState :=
  { item_name := "", listing_id := "", price := "", date_sold := ""
    quantity := 1, notes := "" }

/-- The record `handleSubmit` inserts (page.tsx lines 51-57): the form
spread with `price` converted by `Number` and `source` tagged
`"manual"`. -/
def manualRecord (f : FormState) : RepairRecord :=
  { listing_id := f.listing_id
    item_name := f.item_name
    price := parseJSNumber f.price
    date_sold := f.date_sold
    quantity := some (f.quantity : Rat)
    notes := some f.notes
    source := "manual" }

/-- Outcome of `handleSubmit` after the insert resolves (page.tsx lines
59-73): on error, alert the message and leave the form as it is; on
success, reset the form and raise no alert. -/
def handleSubmit (f : FormState) (res : Except String Unit) :
    FormState × Option String :=
  match res with
  | Except.error e => (f, some e)
  | Except.ok _ => (initialForm, none)

/-- Events that can touch the form state: the five controlled inputs
(page.tsx lines 163-182) and the reset after a successful submit.  No
input is bound to `quantity`. -/
inductive FormEvent
  | setItemName (s : String)
  | setListingId (s : String)
  | setPrice (s : String)
  | setDateSold (s : String)
  | setNotes (s : String)
  | resetAfterSubmit

/-- Effect of one form event on the form state: each input spreads the
form and replaces its own field. -/
def applyFormEvent (f : FormState) : FormEvent → FormState
  | FormEvent.setItemName s => { f with item_name := s }
  | FormEvent.setListingId s => { f with listing_id := s }
  | FormEvent.setPrice s => { f with price := s }
  | FormEvent.setDateSold s => { f with date_sold := s }
  | FormEvent.setNotes s => { f with notes := s }
  | FormEvent.resetAfterSubmit => initialForm

/-- Observable actions of the `init` effect (page.tsx lines 24-45). -/
inductive InitAction
  | navigateLogin
  | fetchList
deriving DecidableEq

/-- The `init` flow: with no session, push `/login` and return (the
repairs list and the loading flag keep their current values, and no query
is issued); with a session, issue the listing query, store its data on
success (an error is only logged), and clear the loading flag. -/
def initStep (session : Option Unit) (resp : Except String (List RepairRecord))
    (repairs0 : List RepairRecord) (loading0 : Bool) :
    List InitAction × List RepairRecord × Bool :=
  match session with
  | none => ([InitAction.navigateLogin], repairs0, loading0)
  | some _ =>
    match resp with
    | Except.error _ => ([InitAction.fetchList], repairs0, false)
    | Except.ok data => ([InitAction.fetchList], data, false)

/-- The date bounds `filterRepairs` attaches to its query (page.tsx lines
122-138), as optional inclusive lower/upper epoch-millisecond bounds on
`date_sold`. -/
def periodBounds (period : String) (nowY nowM : Int) : Option Int × Option Int :=
  if period = "thisMonth" then (some (jsDateCtorMs nowY nowM 1), none)
  else if period = "lastMonth" then
    (some (jsDateCtorMs nowY (nowM - 1) 1), some (jsDateCtorMs nowY nowM 0))
  else if period = "thisYear" then (some (jsDateCtorMs nowY 0 1), none)
  else (none, none)

/-- Whether a record with the given `date_sold` timestamp satisfies the
filter's `gte`/`lte` constraints (both inclusive). -/
def matchesFilter (period : String) (nowY nowM dateMs : Int) : Bool :=
  (match (periodBounds period nowY nowM).1 with
   | none => true
   | some lo => decide (lo ≤ dateMs)) &&
  (match (periodBounds period nowY nowM).2 with
   | none => true
   | some hi => decide (dateMs ≤ hi))

/-- How `filterRepairs` consumes the query response (page.tsx lines
140-141): `setRepairs(data || [])` — the displayed list `prev` is
replaced by the data, or by the empty list when the response carries no
data, and no alert is raised in either case. -/
def applyFilterResponse (_prev : List RepairRecord)
    (resp : Option (List RepairRecord)) : List RepairRecord × Option String :=
  match resp with
  | none => ([], none)
  | some data => (data, none)

/-- Gregorian year of the month preceding month `nowM` (JavaScript
0-based) of year `nowY`. -/
def prevMonthY (nowY nowM : Int) : Int := if nowM = 0 then nowY - 1 else nowY

/-- Gregorian month number (1..12) of the month preceding month `nowM`
(JavaScript 0-based). -/
def prevMonthM (nowM : Int) : Int := if nowM = 0 then 12 else nowM

/-- Epoch milliseconds of 00:00 on the first day of the previous
calendar month. -/
def firstOfPrevMonthMs (nowY nowM : Int) : Int :=
  86400000 * daysFromCivil (prevMonthY nowY nowM) (prevMonthM nowM) 1

/-- Epoch milliseconds of 00:00 on the last day of the previous calendar
month. -/
def lastOfPrevMonthMs (nowY nowM : Int) : Int :=
  86400000 * daysFromCivil (prevMonthY nowY nowM) (prevMonthM nowM)
    (daysInMonth (prevMonthY nowY nowM) (prevMonthM nowM))

/-- Row 1 of the spec's three-row CSV scenario (§8.5). -/
def row1csv : CsvRow :=
  { orderNumber := some "1001", itemTitle := some "Widget"
    totalPrice := some "$10.00", saleDate := some "2024-01-05", quantity := some "2" }

/-- Row 2 of the spec's scenario: empty "Order number". -/
def row2csv : CsvRow :=
  { orderNumber := some "", itemTitle := some "BadRow"
    totalPrice := some "$5", saleDate := some "2024-01-06", quantity := some "1" }

/-- Row 3 of the spec's scenario: empty "Quantity". -/
def row3csv : CsvRow :=
  { orderNumber := some "1002", itemTitle := some "Gadget"
    totalPrice := some "$20.00", saleDate := some "2024-02-01", quantity := some "" }

/-- The record row 1 normalizes to. -/
def rec1001 : RepairRecord :=
  { listing_id := "1001", item_name := "Widget", price := some 10
    date_sold := "2024-01-05T00:00:00.000Z", quantity := some 2
    notes := none, source := "csv" }

/-- The record row 3 normalizes to. -/
def rec1002 : RepairRecord :=
  { listing_id := "1002", item_name := "Gadget", price := some 20
    date_sold := "2024-02-01T00:00:00.000Z", quantity := some 1
    notes := none, source := "csv" }

/-- A valid CSV row whose order number repeats `row1csv`'s. -/
def rowDup : CsvRow :=
  { orderNumber := some "1001", itemTitle := some "Widget Pro"
    totalPrice := some "$12.00", saleDate := some "2024-01-06", quantity := some "1" }

/-- The record `rowDup` normalizes to. -/
def recDup : RepairRecord :=
  { listing_id := "1001", item_name := "Widget Pro", price := some 12
    date_sold := "2024-01-06T00:00:00.000Z", quantity := some 1
    notes := none, source := "csv" }

/-- A row passing the validity gate whose "Sale date" is unparseable. -/
def rowBadDate : CsvRow :=
  { orderNumber := some "3001", itemTitle := some "Clock"
    totalPrice := some "$7", saleDate := some "", quantity := some "1" }

/-- A row passing the validity gate whose "Quantity" is the non-integral
string `"2.5"`. -/
def rowQhalf : CsvRow :=
  { orderNumber := some "2001", itemTitle := some "Cable"
    totalPrice := some "$5", saleDate := some "2024-01-05", quantity := some "2.5" }

/-- The record `rowQhalf` normalizes to: its quantity is the fraction
`5/2`. -/
def recQhalf : RepairRecord :=
  { listing_id := "2001", item_name := "Cable", price := some 5
    date_sold := "2024-01-05T00:00:00.000Z", quantity := some (mkRat 5 2)
    notes := none, source := "csv" }

/-- Follows the specification's words, for comparison with the code: the
"Quantity" cell "parsed as an integer" — a strict decimal integer
parse. -/
def specParseInteger (s : String) : Option Int :=
  match s.toList with
  | '-' :: r => if r ≠ [] ∧ r.all Char.isDigit then some (-(digitsVal r : Int)) else none
  | l => if l ≠ [] ∧ l.all Char.isDigit then some ((digitsVal l : Int)) else none

/- ------------------------------------------------------------------ -/
/- Theorems                                                           -/
/- ------------------------------------------------------------------ -/

/-- A gate-failing row maps to `null` without touching the date. -/
theorem normalizeRow_of_dropped (r : CsvRow) (h : rowDropped r = true) :
    normalizeRow r = Except.ok none := by
  simp [normalizeRow, h]

/-- A row that normalizes to a record gets its `listing_id` from
"Order number" and its `quantity` from `csvQuantity`. -/
theorem normalizeRow_eq_ok (r : CsvRow) (x : RepairRecord)
    (h : normalizeRow r = Except.ok (some x)) :
    x.listing_id = r.orderNumber.getD "" ∧ x.quantity = csvQuantity r.quantity := by
  unfold normalizeRow at h
  split at h
  · exact absurd h (by simp)
  · split at h
    · exact absurd h (by simp)
    · simp only [Except.ok.injEq, Option.some.injEq] at h
      rw [← h]
      exact ⟨rfl, rfl⟩

/-- C1: two CSV rows with identical "Order number" values normalize to
two records with the same `listing_id`; bulk-upserting that batch with
`listing_id` as conflict key into an empty store leaves exactly one
record for that `listing_id`, and it is the later-applied row's record
(overwrite, not duplicate). -/
theorem upsert_same_listing (r1 r2 : CsvRow) (x y : RepairRecord)
    (hid : r1.orderNumber = r2.orderNumber)
    (hb : makeBatch [r1, r2] = Except.ok [x, y]) :
    bulkUpsert [] [x, y] = [y] ∧
      (bulkUpsert [] [x, y]).countP (fun s => s.listing_id = y.listing_id) = 1 := by
  have hxy : x.listing_id = y.listing_id := by
    cases h1 : normalizeRow r1 with
    | error e => simp [makeBatch, h1] at hb
    | ok o1 =>
      cases h2 : normalizeRow r2 with
      | error e => cases o1 <;> simp [makeBatch, h1, h2] at hb
      | ok o2 =>
        cases o1 with
        | none => cases o2 <;> simp [makeBatch, h1, h2] at hb
        | some a =>
          cases o2 with
          | none => simp [makeBatch, h1, h2] at hb
          | some b =>
            have hlist : [a, b] = [x, y] := by
              have h3 : makeBatch [r1, r2] = Except.ok [a, b] := by
                simp [makeBatch, h1, h2]
              rw [h3] at hb
              injection hb
            obtain ⟨ha, hbeq⟩ : a = x ∧ b = y := by simpa using hlist
            rw [← ha, ← hbeq, (normalizeRow_eq_ok r1 a h1).1,
              (normalizeRow_eq_ok r2 b h2).1, hid]
  have hstore : bulkUpsert [] [x, y] = [y] := by
    simp [bulkUpsert, upsertOne, hxy]
  refine ⟨hstore, ?_⟩
  rw [hstore]
  simp [List.countP, List.countP.go]

/-- Instance of `upsert_same_listing` on the two concrete duplicate rows
`row1csv` and `rowDup`. -/
theorem upsert_same_listing_witness :
    bulkUpsert [] [rec1001, recDup] = [recDup] ∧
      (bulkUpsert [] [rec1001, recDup]).countP
        (fun s => s.listing_id = recDup.listing_id) = 1 :=
  upsert_same_listing row1csv rowDup rec1001 recDup (by decide) (by decide)

/-- C2: a parsed CSV row whose "Order number", "Item title" or "Total
price" cell is missing or empty is excluded from the output batch
entirely: the batch built with the row is the batch built without it (in
particular no partial record and no per-row error is produced for it). -/
theorem csv_invalid_row_excluded (pre post : List CsvRow) (row : CsvRow)
    (h : rowDropped row = true) :
    makeBatch (pre ++ row :: post) = makeBatch (pre ++ post) := by
  induction pre with
  | nil =>
    cases hm : makeBatch post <;>
      simp [makeBatch, normalizeRow_of_dropped row h, hm]
  | cons p ps ih =>
    cases hp : normalizeRow p <;> simp [makeBatch, hp, ih]

/-- Instance of `csv_invalid_row_excluded`: dropping the malformed
scenario row between the two valid scenario rows. -/
theorem csv_invalid_row_excluded_witness :
    makeBatch ([row1csv] ++ row2csv :: [row3csv]) = makeBatch ([row1csv] ++ [row3csv]) :=
  csv_invalid_row_excluded [row1csv] [row3csv] row2csv (by decide)

/-- C3: the spec's three-row scenario normalizes to exactly the two
records `rec1001` and `rec1002`, in input order, with the malformed
middle row dropped. -/
theorem csv_scenario_batch :
    makeBatch [row1csv, row2csv, row3csv] = Except.ok [rec1001, rec1002] := by
  decide

/-- C4 counterexample: `rowBadDate` passes the validity gate and its
"Sale date" is unparseable, yet normalization does not succeed with a
sentinel timestamp — the batch construction throws (`RangeError` from
`toISOString`), so nothing reaches the write step. -/
theorem csv_bad_date_not_total :
    rowDropped rowBadDate = false ∧
      makeBatch [rowBadDate] = Except.error JsError.rangeError := by
  decide

/-- C4 (amended): a gate-passing row whose "Sale date" is unparseable
makes the whole import abort: whatever the surrounding rows are, the
batch construction raises `RangeError` and no batch is submitted. -/
theorem csv_bad_date_aborts (pre post : List CsvRow) (row : CsvRow)
    (hg : rowDropped row = false) (hd : jsDateParse row.saleDate = none) :
    makeBatch (pre ++ row :: post) = Except.error JsError.rangeError := by
  induction pre with
  | nil =>
    have hn : normalizeRow row = Except.error JsError.rangeError := by
      simp [normalizeRow, hg, hd]
    simp [makeBatch, hn]
  | cons p ps ih =>
    cases hp : normalizeRow p with
    | error e => cases e; simp [makeBatch, hp]
    | ok o => simp [makeBatch, hp, ih]

/-- Instance of `csv_bad_date_aborts` at the concrete row
`rowBadDate`. -/
theorem csv_bad_date_aborts_witness :
    makeBatch ([] ++ rowBadDate :: []) = Except.error JsError.rangeError :=
  csv_bad_date_aborts [] [] rowBadDate (by decide) (by decide)

/-- C5 counterexample: for the gate-passing row `rowQhalf` with
"Quantity" = `"2.5"`, the normalized quantity is the fraction `5/2` — not
an integer (its denominator is 2), and not the cell "parsed as an
integer" (a strict integer parse of `"2.5"` fails). -/
theorem csv_quantity_not_integer :
    makeBatch [rowQhalf] = Except.ok [recQhalf] ∧
      recQhalf.quantity = some (mkRat 5 2) ∧
      (mkRat 5 2).den ≠ 1 ∧
      specParseInteger "2.5" = none := by
  decide

/-- C5 (amended): for every CSV row that normalizes to a record, the
quantity is the "Quantity" cell converted by JavaScript `Number` (which
may be fractional or NaN), and equals exactly 1 whenever the cell is
absent or empty. -/
theorem csv_quantity_number (row : CsvRow) (x : RepairRecord)
    (h : normalizeRow row = Except.ok (some x)) :
    (jsFalsy row.quantity = true → x.quantity = some 1) ∧
    (∀ s, row.quantity = some s → s ≠ "" → x.quantity = parseJSNumber s) := by
  have hq : x.quantity = csvQuantity row.quantity := (normalizeRow_eq_ok row x h).2
  constructor
  · intro hf
    simp [hq, csvQuantity, hf]
  · intro s hs hne
    simp [hq, csvQuantity, hs, jsFalsy, hne]

/-- Instance of `csv_quantity_number` at the concrete row `rowQhalf`. -/
theorem csv_quantity_number_witness :
    recQhalf.quantity = parseJSNumber "2.5" :=
  (csv_quantity_number rowQhalf recQhalf (by decide)).2 "2.5" rfl (by decide)

set_option maxHeartbeats 1000000 in
/-- `new Date(y, m - 1, 1)` is the first day of the calendar month
preceding (JavaScript) month `m` of year `y`. -/
theorem ctor_prev_first (y m : Int) (hy : 1970 ≤ y) (h0 : 0 ≤ m) (h1 : m < 12) :
    jsDateCtorMs y (m - 1) 1 = firstOfPrevMonthMs y m := by
  simp only [jsDateCtorMs, firstOfPrevMonthMs, prevMonthY, prevMonthM, daysFromCivil]
  rw [if_neg (show ¬(0 ≤ y ∧ y ≤ 99) by omega)]
  interval_cases m <;> norm_num <;> omega

set_option maxHeartbeats 1000000 in
/-- `new Date(y, m, 0)` is the last day of the calendar month preceding
(JavaScript) month `m` of year `y`, leap years included. -/
theorem ctor_day_zero (y m : Int) (hy : 1970 ≤ y) (h0 : 0 ≤ m) (h1 : m < 12) :
    jsDateCtorMs y m 0 = lastOfPrevMonthMs y m := by
  simp only [jsDateCtorMs, lastOfPrevMonthMs, prevMonthY, prevMonthM, daysFromCivil,
    daysInMonth]
  rw [if_neg (show ¬(0 ≤ y ∧ y ≤ 99) by omega)]
  interval_cases m <;> norm_num <;> (try split_ifs) <;> omega

/-- C6: for every current date, `filterRepairs("lastMonth")` bounds the
query by 00:00 of the first day of the previous calendar month (lower)
and 00:00 of day 0 of the current month — the last day of the previous
month — (upper), and a record passes the filter exactly when its
`date_sold` lies between the two bounds, both inclusive. -/
theorem lastMonth_filter_bounds (y m : Int) (hy : 1970 ≤ y) (h0 : 0 ≤ m)
    (h1 : m < 12) :
    periodBounds "lastMonth" y m =
      (some (firstOfPrevMonthMs y m), some (lastOfPrevMonthMs y m)) ∧
    ∀ d : Int, matchesFilter "lastMonth" y m d = true ↔
      (firstOfPrevMonthMs y m ≤ d ∧ d ≤ lastOfPrevMonthMs y m) := by
  have hb : periodBounds "lastMonth" y m =
      (some (firstOfPrevMonthMs y m), some (lastOfPrevMonthMs y m)) := by
    have hb0 : periodBounds "lastMonth" y m =
        (some (jsDateCtorMs y (m - 1) 1), some (jsDateCtorMs y m 0)) := by
      unfold periodBounds
      rw [if_neg (by decide), if_pos rfl]
    rw [hb0, ctor_prev_first y m hy h0 h1, ctor_day_zero y m hy h0 h1]
  refine ⟨hb, fun d => ?_⟩
  simp only [matchesFilter, hb]
  simp [decide_eq_true_eq]

/-- Instance of `lastMonth_filter_bounds` with current date 2024-03-15
(year 2024, JavaScript month 2): the bounds are 2024-02-01T00:00 and
2024-02-29T00:00, and both boundary instants pass the filter
(inclusive). -/
theorem lastMonth_filter_bounds_witness :
    periodBounds "lastMonth" 2024 2 =
      (some (firstOfPrevMonthMs 2024 2), some (lastOfPrevMonthMs 2024 2)) ∧
    matchesFilter "lastMonth" 2024 2 (firstOfPrevMonthMs 2024 2) = true ∧
    matchesFilter "lastMonth" 2024 2 (lastOfPrevMonthMs 2024 2) = true ∧
    toISOString (firstOfPrevMonthMs 2024 2) = "2024-02-01T00:00:00.000Z" ∧
    toISOString (lastOfPrevMonthMs 2024 2) = "2024-02-29T00:00:00.000Z" :=
  ⟨(lastMonth_filter_bounds 2024 2 (by decide) (by decide) (by decide)).1,
   ((lastMonth_filter_bounds 2024 2 (by decide) (by decide) (by decide)).2 _).mpr
     ⟨le_refl _, by decide⟩,
   ((lastMonth_filter_bounds 2024 2 (by decide) (by decide) (by decide)).2 _).mpr
     ⟨by decide, le_refl _⟩,
   by decide, by decide⟩

/-- C7: once the manual insert resolves, a success resets the form
exactly to its default values and raises no alert, while a failure
surfaces the store's error message through the alert and leaves the form
state unchanged. -/
theorem manual_submit_outcome (f : FormState) (e : String) :
    handleSubmit f (Except.ok ()) =
      ({ item_name := "", listing_id := "", price := "", date_sold := ""
         quantity := 1, notes := "" }, none) ∧
    handleSubmit f (Except.error e) = (f, some e) :=
  ⟨rfl, rfl⟩

/-- C8: on view activation with no session, `init` navigates to the
login view and never issues the record-listing query; the listing query
is issued exactly when a session exists. -/
theorem session_guard_no_fetch (resp : Except String (List RepairRecord))
    (repairs0 : List RepairRecord) (loading0 : Bool) :
    (initStep none resp repairs0 loading0).1 = [InitAction.navigateLogin] ∧
    InitAction.fetchList ∉ (initStep none resp repairs0 loading0).1 ∧
    ∀ s : Unit, InitAction.fetchList ∈ (initStep (some s) resp repairs0 loading0).1 := by
  refine ⟨rfl, by simp [initStep], fun s => ?_⟩
  cases resp <;> simp [initStep]

/-- C9: whatever list was displayed before, a filter query that returns
no data (`data` = null) replaces the displayed records with the empty
list and surfaces no error. -/
theorem filter_error_empty_list (prev : List RepairRecord) :
    applyFilterResponse prev none = ([], none) :=
  rfl

/-- C10: after any sequence of form events starting from the initial
form, `quantity` is still 1 — no input modifies it and the reset
restores it — so every record the manual path builds carries
`quantity = 1`. -/
theorem manual_quantity_always_one (evs : List FormEvent) :
    (evs.foldl applyFormEvent initialForm).quantity = 1 ∧
    (manualRecord (evs.foldl applyFormEvent initialForm)).quantity = some 1 := by
  have key : ∀ (l : List FormEvent) (f : FormState), f.quantity = 1 →
      (l.foldl applyFormEvent f).quantity = 1 := by
    intro l
    induction l with
    | nil => exact fun f hf => hf
    | cons e t ih =>
      intro f hf
      refine ih _ ?_
      cases e <;> simp [applyFormEvent, hf, initialForm]
  have h1 := key evs initialForm rfl
  exact ⟨h1, by simp [manualRecord, h1]⟩

end RepairLog
